import Mathlib

/-!
Verification of the TheVault-API-backend services against their specification.

The repository contains three Express/Supabase variants:
* `src/app.js` — a visit counter over a `visits` table (`page_url`, `visit_count`,
  `last_visit`), with a GET handler, a POST increment orchestrator that attempts an
  atomic RPC and falls back to read-modify-write, and a list-all handler.
* `src/app.cjs` — a visitor counter over a `page_views` table (`slug`, `views`)
  with a single increment endpoint on the fixed slug `/`.
* `src/unnamed/part_000` — a card-click tracker over a `click_tracking` table and
  a `click_leaderboard` aggregated view, with `/log-click`, `/leaderboard` and
  `/analytics/:cardTitle` handlers.

Stores are embedded as association lists keyed by strings; remote-store failures
are made explicit through failure oracles carrying the upstream error message, so
that error propagation itself becomes provable. Timestamps are natural numbers.
-/

/-- Association-list lookup, mirroring a single-row `select ... eq(key)` query:
the first row whose key matches is returned, `none` models the zero-rows outcome
(PostgREST error code PGRST116 for `.single()`). -/
def alookup {β : Type} : List (String × β) → String → Option β
  | [], _ => none
  | (k, b) :: rest, key => if k = key then some b else alookup rest key

/-- Row update by key, mirroring `update ... .eq(key)`: every row whose key
matches is overwritten. -/
def aupdate {β : Type} : List (String × β) → String → β → List (String × β)
  | [], _, _ => []
  | (k, v) :: rest, key, b =>
    if k = key then (key, b) :: aupdate rest key b
    else (k, v) :: aupdate rest key b

/-- Row insertion, mirroring `insert {...}`: the new row is appended. -/
def ainsert {β : Type} (s : List (String × β)) (key : String) (b : β) :
    List (String × β) :=
  s ++ [(key, b)]

namespace Visits

/-- A row of the `visits` table of `src/app.js`: a `visit_count` and an optional
`last_visit` timestamp (null until an update records one). -/
structure Row where
  visit_count : Nat
  last_visit : Option Nat
deriving DecidableEq, Repr

/-- The `visits` table, keyed by `page_url`. -/
abbrev Store := List (String × Row)

/-- HTTP responses of the `src/app.js` handlers: `res.json({page, visits})` on
success, `res.status(c).json({error: msg})` on failure. -/
inductive Resp
  | ok (page : String) (visits : Nat)
  | err (status : Nat) (msg : String)
deriving DecidableEq, Repr

/-- Failure oracle for the four remote calls the POST handler can make, in
program order; `some msg` means that call fails upstream with message `msg`.
`sel` models a non-PGRST116 select failure (the PGRST116 zero-rows outcome is
modelled by `alookup` returning `none`). -/
structure Fail where
  rpc : Option String
  sel : Option String
  ins : Option String
  upd : Option String
deriving DecidableEq

/-- Failure oracle for the two remote calls of the GET handler. -/
structure GetFail where
  sel : Option String
  ins : Option String
deriving DecidableEq

/-- The route parameter of `/api/visits/:page?`: `req.params.page` with a fallback, where
a missing or empty (falsy) parameter defaults to `/`. -/
def pageParam : Option String → String
  | some s => if s = "" then "/" else s
  | none => "/"

/-- Modelled from the spec: the `increment_visits` stored procedure lives in the
external database, not under `src/`; section 6 describes it as an atomic
increment stored procedure taking a key and returning the new value, and
section 4.1 has `increment` create an absent key with value 1. -/
def rpcIncrementVisits (s : Store) (key : String) : Store × Nat :=
  match alookup s key with
  | some r => (aupdate s key ⟨r.visit_count + 1, r.last_visit⟩, r.visit_count + 1)
  | none => (ainsert s key ⟨1, none⟩, 1)

/-- The GET `/api/visits/:page?` handler of `src/app.js` (lines 25-59): select the
row; on the zero-rows outcome insert a fresh row with `visit_count = 0` and return
0; on any other select failure, or an insert failure, the error is thrown and the
catch block answers 500 with a fixed message. -/
def getVisitsHandler (f : GetFail) (page : Option String) (s : Store) :
    Resp × Store :=
  let pageUrl := pageParam page
  match f.sel with
  | some _ => (.err 500 "Failed to fetch visit count", s)
  | none =>
    match alookup s pageUrl with
    | none =>
      match f.ins with
      | some _ => (.err 500 "Failed to fetch visit count", s)
      | none => (.ok pageUrl 0, ainsert s pageUrl ⟨0, none⟩)
    | some r => (.ok pageUrl r.visit_count, s)

/-- The POST `/api/visits/:page?` increment orchestrator of `src/app.js`
(lines 62-113): attempt the atomic RPC; if it fails, select the existing row;
on the zero-rows outcome insert a row with `visit_count = 1`; on another select
failure throw; otherwise update the row to `visit_count + 1` recording
`last_visit`; every thrown error reaches the catch block, which answers 500
with a fixed message. -/
def postVisitsHandler (f : Fail) (now : Nat) (page : Option String) (s : Store) :
    Resp × Store :=
  let pageUrl := pageParam page
  match f.rpc with
  | none =>
    let res := rpcIncrementVisits s pageUrl
    (.ok pageUrl res.2, res.1)
  | some _ =>
    match f.sel with
    | some _ => (.err 500 "Failed to increment visit count", s)
    | none =>
      match alookup s pageUrl with
      | none =>
        match f.ins with
        | some _ => (.err 500 "Failed to increment visit count", s)
        | none => (.ok pageUrl 1, ainsert s pageUrl ⟨1, none⟩)
      | some r =>
        match f.upd with
        | some _ => (.err 500 "Failed to increment visit count", s)
        | none =>
          (.ok pageUrl (r.visit_count + 1),
            aupdate s pageUrl ⟨r.visit_count + 1, some now⟩)

/-- The visit count reported by a response (0 for an error response). -/
def respVisits : Resp → Nat
  | .ok _ v => v
  | .err _ _ => 0

/-- Sequential runs of the POST handler: final store and the list of values
returned by the successive calls, in order. -/
def runIncrements (f : Fail) (now : Nat) (page : Option String) :
    Nat → Store → Store × List Nat
  | 0, s => (s, [])
  | n + 1, s =>
    let step := postVisitsHandler f now page s
    let rest := runIncrements f now page n step.2
    (rest.1, respVisits step.1 :: rest.2)

/-- HTTP responses of the list-all handler of `src/app.js`: the selected rows
as a JSON array, or `res.status(500).json({error: msg})`. -/
inductive ListResp
  | ok (rows : List (String × Row))
  | err (status : Nat) (msg : String)
deriving DecidableEq, Repr

/-- The external store executing the `.order visit_count descending` clause of
the list-all query: all rows sorted by descending visit count. -/
def sortByCountDesc (s : Store) : Store :=
  s.insertionSort fun p q => q.2.visit_count ≤ p.2.visit_count

/-- The GET `/api/visits` list-all handler of `src/app.js` (lines 116-130):
select every row ordered by descending visit count; on a select failure the
error is thrown and the catch block answers 500 with a fixed message. -/
def listVisitsHandler (selFail : Option String) (s : Store) : ListResp :=
  match selFail with
  | some _ => .err 500 "Failed to fetch visits data"
  | none => .ok (sortByCountDesc s)

end Visits

namespace Cjs

/-- The `page_views` table of `src/app.cjs`, keyed by `slug`, holding `views`. -/
abbrev Store := List (String × Nat)

/-- The parts of an Express request object visible to the `src/app.cjs` handler:
body, route parameters and query string, all as string maps. The handler has
them in scope but uses none of them. -/
structure Request where
  body : List (String × String)
  params : List (String × String)
  query : List (String × String)
deriving DecidableEq

/-- HTTP responses of the `src/app.cjs` handler: `res.json({value})` on success,
`res.status(500).json({error: msg})` on failure — where `msg` is whatever the
handler puts there. -/
inductive Resp
  | ok (value : Nat)
  | err (status : Nat) (msg : String)
deriving DecidableEq, Repr

/-- Modelled from the spec: the `increment_view_count` stored procedure lives in
the external database, not under `src/`; section 6 describes it as an atomic
increment stored procedure taking a key, and section 4.1 has `increment` create
an absent key with value 1. -/
def rpcIncrementViewCount (s : Store) (slug : String) : Store :=
  match alookup s slug with
  | some v => aupdate s slug (v + 1)
  | none => ainsert s slug 1

set_option linter.unusedVariables false in
/-- The POST `/api/count/visitors/increment` handler of `src/app.cjs`
(lines 16-39): the slug is the constant `/` (the request is ignored); the RPC is
called, and on failure the handler answers 500 with `error.message` — the
upstream message itself; then the updated count is fetched with `.single()`,
a fetch failure again answering 500 with the upstream message. -/
def incrementHandler (req : Request) (rpcFail fetchFail : Option String)
    (s : Store) : Resp × Store :=
  let pageSlug := "/"
  match rpcFail with
  | some m => (.err 500 m, s)
  | none =>
    let s1 := rpcIncrementViewCount s pageSlug
    match fetchFail with
    | some m => (.err 500 m, s1)
    | none =>
      match alookup s1 pageSlug with
      | some v => (.ok v, s1)
      | none => (.err 500 "JSON object requested, multiple (or no) rows returned", s1)

end Cjs

namespace Clicks

/-- JavaScript values a JSON body field can hold, as far as the validation in
`src/unnamed/part_000` distinguishes them: `undef` models a missing field. -/
inductive JsVal
  | undef
  | null
  | boolean (b : Bool)
  | number (n : Int)
  | str (s : String)
deriving DecidableEq

/-- JavaScript truthiness of a `JsVal`: `undefined`, `null`, `false`, `0` and
the empty string are falsy. -/
def JsVal.truthy : JsVal → Bool
  | .undef => false
  | .null => false
  | .boolean b => b
  | .number n => decide (n ≠ 0)
  | .str s => decide (s ≠ "")

/-- The `typeof` test for being a string. -/
def JsVal.isString : JsVal → Bool
  | .str _ => true
  | _ => false

/-- JavaScript `.trim()` modelled character-wise: drop whitespace from both
ends of the character list. -/
def trimChars (l : List Char) : List Char :=
  ((l.dropWhile Char.isWhitespace).reverse.dropWhile Char.isWhitespace).reverse

/-- JavaScript `s.trim()`. -/
def jsTrim (s : String) : String :=
  String.mk (trimChars s.data)

/-- The `v.trim().length === 0` test, defined only on strings (in the source it
sits behind short-circuit guards that ensure the value is a string). -/
def JsVal.trimLengthZero : JsVal → Bool
  | .str s => decide ((jsTrim s).length = 0)
  | _ => false

/-- The sanitation step `cardTitle.trim().substring(0, 255)`: trim, then keep at
most the first 255 characters. -/
def sanitizeTitle (t : String) : String :=
  String.mk ((trimChars t.data).take 255)

/-- A row of the `click_tracking` table: the sanitized card title, caller
address, caller user agent, and the insertion timestamp the database assigns. -/
structure ClickEvent where
  card_title : String
  user_ip : String
  user_agent : String
  clicked_at : Nat
deriving DecidableEq, Repr

/-- HTTP responses of the `/log-click` handler: 400 with a descriptive message,
500 with a fixed message on insert failure, or the created record. -/
inductive LogResp
  | badRequest (msg : String)
  | serverError (msg : String)
  | ok (record : ClickEvent)
deriving DecidableEq, Repr

/-- The POST `/log-click` handler of `src/unnamed/part_000` (lines 65-116):
reject a falsy, non-string or blank-after-trim `cardTitle` with 400; otherwise
insert a row with the sanitized title, the caller address (`req.ip` with a
fallback of `unknown`), and the user agent (likewise), answering 500
with a fixed message if the insert fails, and returning the created record
(`data[0]`) otherwise. -/
def logClickHandler (body : JsVal) (ip ua : Option String)
    (insFail : Option String) (now : Nat) (s : List ClickEvent) :
    LogResp × List ClickEvent :=
  if !body.truthy || !body.isString || body.trimLengthZero then
    (.badRequest "Missing or invalid cardTitle. Must be a non-empty string.", s)
  else
    match body with
    | .str t =>
      let sanitizedTitle := sanitizeTitle t
      let userIP := ip.getD "unknown"
      let userAgent := ua.getD "unknown"
      match insFail with
      | some _ => (.serverError "Failed to log click", s)
      | none =>
        let ev : ClickEvent := ⟨sanitizedTitle, userIP, userAgent, now⟩
        (.ok ev, s ++ [ev])
    | _ => (.badRequest "Missing or invalid cardTitle. Must be a non-empty string.", s)

/-- A row of the external `click_leaderboard` aggregated view: a subject and its
click count. -/
structure LeaderRow where
  card_title : String
  click_count : Nat
deriving DecidableEq, Repr

/-- HTTP responses of the `/leaderboard` handler: the selected rows together
with the metadata fields the handler computes, or a 500 with a fixed message. -/
inductive LeaderResp
  | ok (rows : List LeaderRow) (total_entries : Nat) (limit_applied : Int)
      (min_clicks_filter : Int)
  | err (status : Nat) (msg : String)
deriving DecidableEq, Repr

/-- Query-parameter parsing `parseInt(q) || d`: `none` models a missing or
non-numeric parameter (`parseInt` gives `NaN`), and `0` is falsy in JavaScript,
so both fall back to the default. -/
def parseIntOr (q : Option Int) (d : Int) : Int :=
  match q with
  | none => d
  | some v => if v = 0 then d else v

/-- The GET `/leaderboard` handler of `src/unnamed/part_000` (lines 119-156):
`limit = Math.min(parseInt(req.query.limit) || 10, 100)` and
`minClicks = parseInt(req.query.minClicks) || 1`; the view is queried with
`.gte click_count minClicks` and `.limit limit` — no ordering clause — so the
handler receives the view rows in the order the view supplies them, keeps those
with count at least `minClicks`, and truncates to `limit` rows. -/
def leaderboardHandler (limitQ minClicksQ : Option Int) (qFail : Option String)
    (view : List LeaderRow) : LeaderResp :=
  let limit := min (parseIntOr limitQ 10) 100
  let minClicks := parseIntOr minClicksQ 1
  match qFail with
  | some _ => .err 500 "Failed to fetch leaderboard"
  | none =>
    let rows := (view.filter fun r => minClicks ≤ (r.click_count : Int)).take limit.toNat
    .ok rows rows.length limit minClicks

/-- The timestamps of the click events recorded for a given card title. -/
def clickTimes (s : List ClickEvent) (title : String) : List Nat :=
  (s.filter fun e => e.card_title == title).map (fun e => e.clicked_at)

/-- The external store executing the `.order clicked_at descending` clause:
matching rows sorted by descending timestamp. -/
def sortDesc (l : List Nat) : List Nat :=
  l.insertionSort (· ≥ ·)

/-- HTTP responses of the `/analytics/:cardTitle` handler. `clicked_at` values
are non-empty timestamp strings in the database, hence truthy, so the
`?.clicked_at || null` fallbacks reduce to head/last of the row list. -/
inductive AnalyticsResp
  | ok (card_title : String) (total_clicks : Nat) (recent_clicks : List Nat)
      (first_click : Option Nat) (last_click : Option Nat)
  | err (status : Nat) (msg : String)
deriving DecidableEq, Repr

/-- The GET `/analytics/:cardTitle` handler of `src/unnamed/part_000`
(lines 159-195): select the timestamps of the rows for the card, ordered most
recent first; answer with the row count, the first 10 rows, the last row
(earliest click) and the first row (latest click). -/
def analyticsHandler (qFail : Option String) (title : String)
    (s : List ClickEvent) : AnalyticsResp :=
  match qFail with
  | some _ => .err 500 "Failed to fetch analytics"
  | none =>
    let data := sortDesc (clickTimes s title)
    .ok title data.length (data.take 10) data.getLast? data.head?

end Clicks

namespace PutCount

/-- The JSON body field `value` of a PUT `/count/{key}` request: an integer, or
some other JSON value. -/
inductive BodyValue
  | intVal (n : Int)
  | nonIntVal
deriving DecidableEq

/-- Responses of the PUT `/count/{key}` handler. -/
inductive Resp
  | badRequest (msg : String)
  | ok (value : Int)
deriving DecidableEq, Repr

/-- A key-value counter store for the set operation. -/
abbrev Store := List (String × Int)

/-- Modelled from the spec: the adapter `set` operation — no `PUT /count/{key}`
route or `set` function exists under `src/`; section 4.1 specifies `set(key,
value)` requires `value` be a non-negative integer, failing with
`InvalidArgument` otherwise, and overwrites and returns the new value. -/
def setKV (s : Store) (key : String) (v : Int) : Store :=
  match alookup s key with
  | some _ => aupdate s key v
  | none => ainsert s key v

/-- Modelled from the spec: the `PUT /count/{key}` handler — absent from `src/`;
section 4.3 specifies `PUT /count/{key}` with body `{value}` maps to
`adapter.set(key, value)`, answering 400 if `value` is not a non-negative
integer, and section 8 requires the 400 case to leave any prior value for the
key unchanged. -/
def putCountHandler (key : String) (v : BodyValue) (s : Store) : Resp × Store :=
  match v with
  | .intVal n =>
    if n < 0 then (.badRequest "value must be a non-negative integer", s)
    else (.ok n, setKV s key n)
  | .nonIntVal => (.badRequest "value must be a non-negative integer", s)

end PutCount

/-- The property the analytics handler is claimed to satisfy: the response
carries the total click count of the subject, a most-recent-first list of its
most recent at-most-10 timestamps, and the earliest and latest timestamps. -/
def Clicks.analyticsSpec (s : List Clicks.ClickEvent) (title : String) : Prop :=
  ∃ recent rest f la,
    Clicks.analyticsHandler none title s
      = .ok title (Clicks.clickTimes s title).length recent (some f) (some la) ∧
    (recent ++ rest).Perm (Clicks.clickTimes s title) ∧
    recent.length = min 10 (Clicks.clickTimes s title).length ∧
    List.Sorted (· ≥ ·) recent ∧
    (∀ a ∈ recent, ∀ b ∈ rest, b ≤ a) ∧
    f ∈ Clicks.clickTimes s title ∧ (∀ t ∈ Clicks.clickTimes s title, f ≤ t) ∧
    la ∈ Clicks.clickTimes s title ∧ (∀ t ∈ Clicks.clickTimes s title, t ≤ la)

theorem alookup_aupdate {β : Type} {s : List (String × β)} {key : String} {b : β}
    (b' : β) (h : alookup s key = some b) :
    alookup (aupdate s key b') key = some b' := by
  induction s with
  | nil => simp [alookup] at h
  | cons p rest ih =>
    obtain ⟨k, v⟩ := p
    by_cases hk : k = key
    · subst hk
      simp [alookup, aupdate]
    · simp [alookup, hk] at h
      simpa [alookup, aupdate, hk] using ih h

theorem alookup_ainsert {β : Type} {s : List (String × β)} {key : String}
    (b : β) (h : alookup s key = none) :
    alookup (ainsert s key b) key = some b := by
  induction s with
  | nil => simp [alookup, ainsert]
  | cons p rest ih =>
    obtain ⟨k, v⟩ := p
    by_cases hk : k = key
    · simp [alookup, hk] at h
    · simp [alookup, hk] at h
      simpa [alookup, ainsert, hk] using ih h

theorem sorted_ge_head_max {l : List Nat} (h : List.Sorted (· ≥ ·) l) {m : Nat}
    (hm : l.head? = some m) : ∀ a ∈ l, a ≤ m := by
  cases l with
  | nil => simp at hm
  | cons x t =>
    simp only [List.head?_cons, Option.some.injEq] at hm
    subst hm
    intro a ha
    rcases List.mem_cons.mp ha with rfl | h2
    · exact le_refl a
    · exact List.rel_of_sorted_cons h a h2

theorem sorted_ge_getLast_min : ∀ {l : List Nat}, List.Sorted (· ≥ ·) l →
    ∀ {m : Nat}, l.getLast? = some m → ∀ a ∈ l, m ≤ a := by
  intro l
  induction l with
  | nil =>
    intro _ m hm
    simp at hm
  | cons x t ih =>
    intro h m hm a ha
    cases t with
    | nil =>
      rw [List.getLast?_singleton] at hm
      rcases List.mem_cons.mp ha with rfl | h2
      · exact le_of_eq (Option.some.inj hm).symm
      · simp at h2
    | cons y t2 =>
      rw [List.getLast?_cons_cons] at hm
      have hmem : m ∈ y :: t2 := by
        rcases List.mem_getLast?_eq_getLast (Option.mem_def.mpr hm) with ⟨hne, rfl⟩
        exact List.getLast_mem hne
      rcases List.mem_cons.mp ha with rfl | h2
      · exact List.rel_of_sorted_cons h m hmem
      · exact ih h.of_cons hm a h2

/-- Claim C1: in the remote-store increment orchestrator of `src/app.js`, when
the atomic RPC fails, a non-not-found read failure propagates as HTTP 500 with
the store unchanged; a not-found read leads to inserting a row with value 1 and
returning 1; a successful read leads to updating the row to value + 1 with a
last-modified timestamp and returning the updated value. -/
theorem spec_C1_fallback (m : String) (now : Nat) (p : Option String)
    (s : Visits.Store) :
    (∀ m2, Visits.postVisitsHandler ⟨some m, some m2, none, none⟩ now p s
      = (.err 500 "Failed to increment visit count", s)) ∧
    (alookup s (Visits.pageParam p) = none →
      Visits.postVisitsHandler ⟨some m, none, none, none⟩ now p s
        = (.ok (Visits.pageParam p) 1,
            ainsert s (Visits.pageParam p) ⟨1, none⟩)) ∧
    (∀ r, alookup s (Visits.pageParam p) = some r →
      Visits.postVisitsHandler ⟨some m, none, none, none⟩ now p s
        = (.ok (Visits.pageParam p) (r.visit_count + 1),
            aupdate s (Visits.pageParam p) ⟨r.visit_count + 1, some now⟩)) := by
  refine ⟨fun m2 => rfl, fun h => ?_, fun r h => ?_⟩
  · simp [Visits.postVisitsHandler, h]
  · simp [Visits.postVisitsHandler, h]

theorem spec_C1_witness :
    Visits.postVisitsHandler ⟨some "boom", none, none, none⟩ 7 (some "home")
        [("home", ⟨2, none⟩)]
      = (.ok "home" 3, [("home", ⟨3, some 7⟩)]) :=
  (spec_C1_fallback "boom" 7 (some "home") [("home", ⟨2, none⟩)]).2.2
    ⟨2, none⟩ (by decide)

/-- Claim C3 fails on the code: a GET of a never-set key does mutate the store,
inserting a row with value 0 as a side effect of the read. -/
theorem spec_C3_counterexample :
    (Visits.getVisitsHandler ⟨none, none⟩ (some "p") []).2
        = [("p", ⟨0, none⟩)] ∧
    (Visits.getVisitsHandler ⟨none, none⟩ (some "p") []).2 ≠ [] := by
  constructor
  · decide
  · decide

/-- Claim C3 amended: a read returns the stored value and leaves the store
unchanged whenever the key exists, but for an absent key it inserts a row with
value 0 as a side effect of the read (and returns 0). -/
theorem spec_C3_amended (p : Option String) (s : Visits.Store) :
    (∀ r, alookup s (Visits.pageParam p) = some r →
      Visits.getVisitsHandler ⟨none, none⟩ p s
        = (.ok (Visits.pageParam p) r.visit_count, s)) ∧
    (alookup s (Visits.pageParam p) = none →
      Visits.getVisitsHandler ⟨none, none⟩ p s
        = (.ok (Visits.pageParam p) 0,
            ainsert s (Visits.pageParam p) ⟨0, none⟩)) := by
  refine ⟨fun r h => ?_, fun h => ?_⟩
  · simp [Visits.getVisitsHandler, h]
  · simp [Visits.getVisitsHandler, h]

theorem spec_C3_amended_witness :
    Visits.getVisitsHandler ⟨none, none⟩ (some "q") [("q", ⟨4, none⟩)]
      = (.ok "q" 4, [("q", ⟨4, none⟩)]) :=
  (spec_C3_amended (some "q") [("q", ⟨4, none⟩)]).1 ⟨4, none⟩ (by decide)

/-- Claim C5: a GET of a key that was never set or incremented (absent from the
store) reports a visit count of 0. -/
theorem spec_C5_get_default (p : Option String) (s : Visits.Store)
    (h : alookup s (Visits.pageParam p) = none) :
    (Visits.getVisitsHandler ⟨none, none⟩ p s).1
      = .ok (Visits.pageParam p) 0 := by
  simp [Visits.getVisitsHandler, h]

theorem spec_C5_witness :
    (Visits.getVisitsHandler ⟨none, none⟩ (some "fresh") [("other", ⟨9, none⟩)]).1
      = .ok "fresh" 0 :=
  spec_C5_get_default (some "fresh") [("other", ⟨9, none⟩)] (by decide)

theorem runIncrements_present (rpc : Option String) (now : Nat) (p : Option String) :
    ∀ (n : Nat) (s : Visits.Store) (c : Nat) (lv : Option Nat),
      alookup s (Visits.pageParam p) = some ⟨c, lv⟩ →
      (Visits.runIncrements ⟨rpc, none, none, none⟩ now p n s).2
          = List.range' (c + 1) n ∧
      ∃ lv2, alookup (Visits.runIncrements ⟨rpc, none, none, none⟩ now p n s).1
          (Visits.pageParam p) = some ⟨c + n, lv2⟩ := by
  intro n
  induction n with
  | zero =>
    intro s c lv h
    exact ⟨rfl, lv, by simpa using h⟩
  | succ n ih =>
    intro s c lv h
    have hstep : ∃ s1 lv1, Visits.postVisitsHandler ⟨rpc, none, none, none⟩ now p s
        = (.ok (Visits.pageParam p) (c + 1), s1) ∧
        alookup s1 (Visits.pageParam p) = some ⟨c + 1, lv1⟩ := by
      cases rpc with
      | none =>
        refine ⟨aupdate s (Visits.pageParam p) ⟨c + 1, lv⟩, lv, ?_,
          alookup_aupdate _ h⟩
        simp [Visits.postVisitsHandler, Visits.rpcIncrementVisits, h]
      | some m =>
        refine ⟨aupdate s (Visits.pageParam p) ⟨c + 1, some now⟩, some now, ?_,
          alookup_aupdate _ h⟩
        simp [Visits.postVisitsHandler, h]
    obtain ⟨s1, lv1, hpost, hlook⟩ := hstep
    obtain ⟨hresp, lv2, hfinal⟩ := ih s1 (c + 1) lv1 hlook
    constructor
    · simp only [Visits.runIncrements, hpost, Visits.respVisits, hresp,
        List.range'_succ]
    · refine ⟨lv2, ?_⟩
      have hadd : c + 1 + n = c + (n + 1) := by omega
      simp only [Visits.runIncrements, hpost]
      rw [← hadd]
      exact hfinal

/-- Claim C6: starting from a store in which the key is absent, n sequential
calls of the increment orchestrator (with or without the atomic RPC available,
and with no other store failure) return the running counts 1, 2, ..., n, and a
subsequent GET of the key reports n. -/
theorem spec_C6_sequential_increments (rpc : Option String) (now : Nat)
    (p : Option String) (s : Visits.Store) (n : Nat)
    (h : alookup s (Visits.pageParam p) = none) :
    (Visits.runIncrements ⟨rpc, none, none, none⟩ now p n s).2
        = List.range' 1 n ∧
    (Visits.getVisitsHandler ⟨none, none⟩ p
        (Visits.runIncrements ⟨rpc, none, none, none⟩ now p n s).1).1
      = .ok (Visits.pageParam p) n := by
  cases n with
  | zero =>
    refine ⟨rfl, ?_⟩
    simp [Visits.runIncrements, Visits.getVisitsHandler, h]
  | succ n =>
    have hstep : ∃ s1, Visits.postVisitsHandler ⟨rpc, none, none, none⟩ now p s
        = (.ok (Visits.pageParam p) 1, s1) ∧
        alookup s1 (Visits.pageParam p) = some ⟨1, none⟩ := by
      cases rpc with
      | none =>
        refine ⟨ainsert s (Visits.pageParam p) ⟨1, none⟩, ?_, alookup_ainsert _ h⟩
        simp [Visits.postVisitsHandler, Visits.rpcIncrementVisits, h]
      | some m =>
        refine ⟨ainsert s (Visits.pageParam p) ⟨1, none⟩, ?_, alookup_ainsert _ h⟩
        simp [Visits.postVisitsHandler, h]
    obtain ⟨s1, hpost, hlook⟩ := hstep
    obtain ⟨hresp, lv2, hfinal⟩ := runIncrements_present rpc now p n s1 1 none hlook
    constructor
    · simp only [Visits.runIncrements, hpost, Visits.respVisits, hresp,
        List.range'_succ]
    · have hadd : 1 + n = n + 1 := by omega
      rw [hadd] at hfinal
      simp only [Visits.runIncrements, hpost]
      simp [Visits.getVisitsHandler, hfinal]

theorem spec_C6_witness :
    (Visits.runIncrements ⟨some "down", none, none, none⟩ 4 (some "home") 3 []).2
        = [1, 2, 3] ∧
    (Visits.getVisitsHandler ⟨none, none⟩ (some "home")
        (Visits.runIncrements ⟨some "down", none, none, none⟩ 4 (some "home") 3 []).1).1
      = .ok "home" 3 :=
  spec_C6_sequential_increments (some "down") 4 (some "home") [] 3 (by decide)

/-- Claim C10: the `src/app.cjs` increment endpoint ignores the request
entirely and always operates on the fixed slug `/`: any two requests against
the same store state produce identical outcomes, and with no store failure the
endpoint increments `/` and returns its stored count plus one. -/
theorem spec_C10_fixed_key (r1 r2 : Cjs.Request) (rpcF fetchF : Option String)
    (s : Cjs.Store) :
    Cjs.incrementHandler r1 rpcF fetchF s = Cjs.incrementHandler r2 rpcF fetchF s ∧
    Cjs.incrementHandler r1 none none s
      = (.ok ((alookup s "/").getD 0 + 1), Cjs.rpcIncrementViewCount s "/") := by
  refine ⟨rfl, ?_⟩
  cases hv : alookup s "/" with
  | some v =>
    have hu := alookup_aupdate (v + 1) hv
    simp [Cjs.incrementHandler, Cjs.rpcIncrementViewCount, hv, hu]
  | none =>
    have hi := alookup_ainsert 1 hv
    simp [Cjs.incrementHandler, Cjs.rpcIncrementViewCount, hv, hi]

/-- Claim C9 fails on the code: the `src/app.cjs` increment handler answers a
store failure with the upstream error message itself, so the client-facing
body exposes (and varies with) the internal store error detail. -/
theorem spec_C9_counterexample :
    (Cjs.incrementHandler ⟨[], [], []⟩
        (some "connection refused: db.internal:5432") none []).1
      = .err 500 "connection refused: db.internal:5432" ∧
    (Cjs.incrementHandler ⟨[], [], []⟩
        (some "connection refused: db.internal:5432") none []).1
      ≠ (Cjs.incrementHandler ⟨[], [], []⟩ (some "timeout") none []).1 := by
  exact ⟨by decide, by decide⟩

/-- Claim C9 amended: every handler answers 500 on a store-layer failure; the
`src/app.js` and click-tracker handlers use fixed generic messages independent
of the upstream error, but the `src/app.cjs` increment handler returns the
upstream error message verbatim. -/
theorem spec_C9_amended (a b c m : String) (now : Nat) (p : Option String)
    (s : Visits.Store) (t : String) (ip ua : Option String)
    (cs : List Clicks.ClickEvent) (lq mq : Option Int)
    (view : List Clicks.LeaderRow) (r : Cjs.Request) (vs : Cjs.Store) :
    ((Visits.postVisitsHandler ⟨some a, some b, none, none⟩ now p s).1
      = .err 500 "Failed to increment visit count") ∧
    ((Visits.postVisitsHandler ⟨some a, none, some b, some c⟩ now p s).1
      = .err 500 "Failed to increment visit count") ∧
    ((Visits.getVisitsHandler ⟨some a, none⟩ p s).1
      = .err 500 "Failed to fetch visit count") ∧
    (alookup s (Visits.pageParam p) = none →
      (Visits.getVisitsHandler ⟨none, some a⟩ p s).1
        = .err 500 "Failed to fetch visit count") ∧
    (Visits.listVisitsHandler (some a) s
      = .err 500 "Failed to fetch visits data") ∧
    ((Clicks.jsTrim t).length ≠ 0 → t ≠ "" →
      (Clicks.logClickHandler (.str t) ip ua (some a) now cs).1
        = .serverError "Failed to log click") ∧
    (Clicks.leaderboardHandler lq mq (some a) view
      = .err 500 "Failed to fetch leaderboard") ∧
    (Clicks.analyticsHandler (some a) t cs
      = .err 500 "Failed to fetch analytics") ∧
    ((Cjs.incrementHandler r (some m) none vs).1 = .err 500 m) := by
  refine ⟨rfl, ?_, rfl, fun h => ?_, rfl, fun h1 h2 => ?_, rfl, rfl, rfl⟩
  · cases hv : alookup s (Visits.pageParam p) with
    | none => simp [Visits.postVisitsHandler, hv]
    | some r0 => simp [Visits.postVisitsHandler, hv]
  · simp [Visits.getVisitsHandler, h]
  · simp [Clicks.logClickHandler, Clicks.JsVal.truthy, Clicks.JsVal.isString,
      Clicks.JsVal.trimLengthZero, h1, h2]

theorem spec_C9_amended_witness :
    ((Visits.postVisitsHandler ⟨some "u1", some "u2", none, none⟩ 0 (some "p") []).1
      = .err 500 "Failed to increment visit count") ∧
    ((Visits.postVisitsHandler ⟨some "u1", none, some "u2", some "u3"⟩ 0 (some "p") []).1
      = .err 500 "Failed to increment visit count") ∧
    ((Visits.getVisitsHandler ⟨some "u1", none⟩ (some "p") []).1
      = .err 500 "Failed to fetch visit count") ∧
    ((Visits.getVisitsHandler ⟨none, some "u1"⟩ (some "p") []).1
      = .err 500 "Failed to fetch visit count") ∧
    (Visits.listVisitsHandler (some "u1") []
      = .err 500 "Failed to fetch visits data") ∧
    ((Clicks.logClickHandler (.str "Ace") none none (some "u1") 0 []).1
      = .serverError "Failed to log click") ∧
    (Clicks.leaderboardHandler none none (some "u1") []
      = .err 500 "Failed to fetch leaderboard") ∧
    (Clicks.analyticsHandler (some "u1") "Ace" []
      = .err 500 "Failed to fetch analytics") ∧
    ((Cjs.incrementHandler ⟨[], [], []⟩ (some "u1") none []).1
      = .err 500 "u1") := by
  have h := spec_C9_amended "u1" "u2" "u3" "u1" 0 (some "p") [] "Ace" none none
    [] none none [] ⟨[], [], []⟩ []
  exact ⟨h.1, h.2.1, h.2.2.1, h.2.2.2.1 (by decide), h.2.2.2.2.1,
    h.2.2.2.2.2.1 (by decide) (by decide), h.2.2.2.2.2.2.1,
    h.2.2.2.2.2.2.2.1, h.2.2.2.2.2.2.2.2⟩

/-- Claim C2 fails on the code: the leaderboard handler applies no ordering
clause, so rows come back in whatever order the aggregated view supplies them;
a view listing a 1-click subject before a 2-click subject passes through
unchanged, not in descending click order. -/
theorem spec_C2_counterexample :
    Clicks.leaderboardHandler none none none [⟨"a", 1⟩, ⟨"b", 2⟩]
      = .ok [⟨"a", 1⟩, ⟨"b", 2⟩] 2 10 1 ∧
    ¬ List.Sorted (fun r1 r2 : Clicks.LeaderRow => r2.click_count ≤ r1.click_count)
        [⟨"a", 1⟩, ⟨"b", 2⟩] := by
  refine ⟨by decide, fun hs => ?_⟩
  have h21 := List.rel_of_sorted_cons hs ⟨"b", 2⟩ (by simp)
  exact absurd h21 (by decide)

/-- Claim C2 amended: the leaderboard response contains only rows whose count
is at least the requested minimum, is capped at min(limit, 100) rows, and keeps
the rows in the order the aggregated view supplies them (the handler applies no
descending ordering). -/
theorem spec_C2_amended (lq mq : Option Int) (view : List Clicks.LeaderRow) :
    ∃ rows, Clicks.leaderboardHandler lq mq none view
        = .ok rows rows.length (min (Clicks.parseIntOr lq 10) 100)
            (Clicks.parseIntOr mq 1) ∧
      (∀ r ∈ rows, Clicks.parseIntOr mq 1 ≤ (r.click_count : Int)) ∧
      rows.length ≤ (min (Clicks.parseIntOr lq 10) 100).toNat ∧
      min (Clicks.parseIntOr lq 10) 100 ≤ 100 ∧
      rows.Sublist view := by
  refine ⟨_, rfl, ?_, List.length_take_le _ _, min_le_right _ _,
    (List.take_sublist _ _).trans (List.filter_sublist _)⟩
  intro r hr
  have hmem : r ∈ view.filter
      (fun r => decide (Clicks.parseIntOr mq 1 ≤ (r.click_count : Int))) :=
    (List.take_sublist _ _).subset hr
  exact of_decide_eq_true (List.mem_filter.mp hmem).2

theorem spec_C2_amended_witness :
    ∃ rows, Clicks.leaderboardHandler (some 1) (some 2) none
          [⟨"a", 1⟩, ⟨"b", 2⟩, ⟨"c", 3⟩]
        = .ok rows rows.length (min (Clicks.parseIntOr (some 1) 10) 100)
            (Clicks.parseIntOr (some 2) 1) ∧
      (∀ r ∈ rows, Clicks.parseIntOr (some 2) 1 ≤ (r.click_count : Int)) ∧
      rows.length ≤ (min (Clicks.parseIntOr (some 1) 10) 100).toNat ∧
      min (Clicks.parseIntOr (some 1) 10) 100 ≤ 100 ∧
      rows.Sublist [⟨"a", 1⟩, ⟨"b", 2⟩, ⟨"c", 3⟩] :=
  spec_C2_amended (some 1) (some 2) [⟨"a", 1⟩, ⟨"b", 2⟩, ⟨"c", 3⟩]

theorem string_length_mk (l : List Char) : (String.mk l).length = l.length :=
  rfl

/-- Claim C4: the `/log-click` handler rejects a missing, non-string or
blank-after-trim `cardTitle` with HTTP 400 and an unchanged store; for a valid
subject it records a click event whose title is the trimmed subject truncated
to 255 characters (so the recorded title never exceeds 255 characters, and a
trimmed subject of at most 255 characters is stored unchanged) and returns the
created record. -/
theorem spec_C4_log_click (body : Clicks.JsVal) (ip ua : Option String)
    (now : Nat) (s : List Clicks.ClickEvent) :
    ((∀ t, body ≠ .str t) →
      Clicks.logClickHandler body ip ua none now s
        = (.badRequest "Missing or invalid cardTitle. Must be a non-empty string.",
            s)) ∧
    (∀ t, body = .str t → (Clicks.jsTrim t).length = 0 →
      Clicks.logClickHandler body ip ua none now s
        = (.badRequest "Missing or invalid cardTitle. Must be a non-empty string.",
            s)) ∧
    (∀ t, body = .str t → (Clicks.jsTrim t).length ≠ 0 →
      ∃ ev : Clicks.ClickEvent,
        Clicks.logClickHandler body ip ua none now s = (.ok ev, s ++ [ev]) ∧
        ev.card_title = Clicks.sanitizeTitle t ∧
        ev.card_title.length ≤ 255 ∧
        ((Clicks.jsTrim t).length ≤ 255 → ev.card_title = Clicks.jsTrim t)) := by
  refine ⟨fun hne => ?_, fun t ht h0 => ?_, fun t ht h0 => ?_⟩
  · cases body with
    | str t => exact absurd rfl (hne t)
    | undef => rfl
    | null => rfl
    | boolean b => cases b <;> rfl
    | number n =>
      simp [Clicks.logClickHandler, Clicks.JsVal.truthy, Clicks.JsVal.isString,
        Clicks.JsVal.trimLengthZero]
  · subst ht
    simp [Clicks.logClickHandler, Clicks.JsVal.truthy, Clicks.JsVal.isString,
      Clicks.JsVal.trimLengthZero, h0]
  · subst ht
    have ht' : t ≠ "" := by
      intro he
      subst he
      exact h0 rfl
    refine ⟨⟨Clicks.sanitizeTitle t, ip.getD "unknown", ua.getD "unknown", now⟩,
      ?_, rfl, ?_, fun hle => ?_⟩
    · simp [Clicks.logClickHandler, Clicks.JsVal.truthy, Clicks.JsVal.isString,
        Clicks.JsVal.trimLengthZero, ht', h0]
    · simp [Clicks.sanitizeTitle, string_length_mk,
        List.length_take_le 255 (Clicks.trimChars t.data)]
    · have hlen : (Clicks.trimChars t.data).length ≤ 255 := by
        simpa [Clicks.jsTrim, string_length_mk] using hle
      simp [Clicks.sanitizeTitle, Clicks.jsTrim, List.take_of_length_le hlen]

theorem spec_C4_witness :
    (Clicks.logClickHandler (.number 5) none none none 3 []
      = (.badRequest "Missing or invalid cardTitle. Must be a non-empty string.",
          [])) ∧
    (Clicks.logClickHandler (.str "   ") none none none 3 []
      = (.badRequest "Missing or invalid cardTitle. Must be a non-empty string.",
          [])) ∧
    ∃ ev : Clicks.ClickEvent,
      Clicks.logClickHandler (.str " Ace ") none none none 3 [] = (.ok ev, [ev]) ∧
      ev.card_title = Clicks.sanitizeTitle " Ace " ∧
      ev.card_title.length ≤ 255 ∧
      ((Clicks.jsTrim " Ace ").length ≤ 255 →
        ev.card_title = Clicks.jsTrim " Ace ") := by
  have h1 := spec_C4_log_click (.number 5) none none 3 []
  have h2 := spec_C4_log_click (.str "   ") none none 3 []
  have h3 := spec_C4_log_click (.str " Ace ") none none 3 []
  exact ⟨h1.1 (by intro t h; cases h), h2.2.1 "   " rfl (by decide),
    h3.2.2 " Ace " rfl (by decide)⟩

/-- Claim C7: for a subject with recorded click events, the analytics response
reports the total click count, the at-most-10 most recent timestamps in
most-recent-first order, and the earliest and latest timestamps. -/
theorem spec_C7_analytics (s : List Clicks.ClickEvent) (title : String)
    (h : Clicks.clickTimes s title ≠ []) : Clicks.analyticsSpec s title := by
  set ts := Clicks.clickTimes s title with hts
  set data := Clicks.sortDesc ts with hdata
  have hperm : data.Perm ts := List.perm_insertionSort _ _
  have hsort : List.Sorted (· ≥ ·) data := List.sorted_insertionSort _ _
  have hlen : data.length = ts.length := hperm.length_eq
  have hdne : data ≠ [] := by
    intro hd
    apply h
    have : ts.length = 0 := by rw [← hlen, hd]; rfl
    exact List.length_eq_zero.mp this
  refine ⟨data.take 10, data.drop 10, data.getLast hdne, data.head hdne,
    ?_, ?_, ?_, ?_, ?_, ?_, ?_, ?_, ?_⟩
  · show Clicks.analyticsHandler none title s = _
    simp only [Clicks.analyticsHandler, ← hts, ← hdata]
    rw [List.getLast?_eq_getLast data hdne, List.head?_eq_head hdne, hlen]
  · rw [List.take_append_drop]
    exact hperm
  · rw [List.length_take, hlen]
  · exact List.Pairwise.sublist (List.take_sublist _ _) hsort
  · intro x hx y hy
    have hp : List.Pairwise (· ≥ ·) (data.take 10 ++ data.drop 10) := by
      rw [List.take_append_drop]
      exact hsort
    exact (List.pairwise_append.mp hp).2.2 x hx y hy
  · exact hperm.subset (List.getLast_mem hdne)
  · intro x hx
    exact sorted_ge_getLast_min hsort (List.getLast?_eq_getLast data hdne) x
      (hperm.mem_iff.mpr hx)
  · exact hperm.subset (List.head_mem hdne)
  · intro x hx
    exact sorted_ge_head_max hsort (List.head?_eq_head hdne) x
      (hperm.mem_iff.mpr hx)

theorem spec_C7_witness :
    Clicks.clickTimes
        [⟨"Ace", "1.2.3.4", "ua", 3⟩, ⟨"Other", "1.2.3.4", "ua", 9⟩,
          ⟨"Ace", "5.6.7.8", "ua", 7⟩] "Ace" ≠ [] ∧
    Clicks.analyticsSpec
        [⟨"Ace", "1.2.3.4", "ua", 3⟩, ⟨"Other", "1.2.3.4", "ua", 9⟩,
          ⟨"Ace", "5.6.7.8", "ua", 7⟩] "Ace" :=
  ⟨by decide, spec_C7_analytics
    [⟨"Ace", "1.2.3.4", "ua", 3⟩, ⟨"Other", "1.2.3.4", "ua", 9⟩,
      ⟨"Ace", "5.6.7.8", "ua", 7⟩] "Ace" (by decide)⟩

/-- Claim C8: the PUT count handler (modelled from the spec, no such route
exists under `src/`) rejects a body value that is not a non-negative integer
with HTTP 400 leaving the store unchanged, and overwrites the counter and
returns the new value for a non-negative integer. -/
theorem spec_C8_put_count (key : String) (s : PutCount.Store) :
    (PutCount.putCountHandler key .nonIntVal s
      = (.badRequest "value must be a non-negative integer", s)) ∧
    (∀ n : Int, n < 0 → PutCount.putCountHandler key (.intVal n) s
      = (.badRequest "value must be a non-negative integer", s)) ∧
    (∀ n : Int, 0 ≤ n →
      PutCount.putCountHandler key (.intVal n) s
          = (.ok n, PutCount.setKV s key n) ∧
      alookup (PutCount.setKV s key n) key = some n) := by
  refine ⟨rfl, fun n hn => ?_, fun n hn => ⟨?_, ?_⟩⟩
  · simp [PutCount.putCountHandler, hn]
  · simp [PutCount.putCountHandler, not_lt.mpr hn]
  · cases hv : alookup s key with
    | some v =>
      simp only [PutCount.setKV, hv]
      exact alookup_aupdate n hv
    | none =>
      simp only [PutCount.setKV, hv]
      exact alookup_ainsert n hv

theorem spec_C8_witness :
    (PutCount.putCountHandler "x" (.intVal (-1)) [("x", 5)]
      = (.badRequest "value must be a non-negative integer", [("x", 5)])) ∧
    (PutCount.putCountHandler "x" (.intVal 3) [("x", 5)]
      = (.ok 3, [("x", 3)])) ∧
    alookup [(("x" : String), (3 : Int))] "x" = some 3 := by
  have h := spec_C8_put_count "x" [("x", 5)]
  exact ⟨h.2.1 (-1) (by decide), (h.2.2 3 (by decide)).1, (h.2.2 3 (by decide)).2⟩
